import Mathlib

/-!
Verification development for the Metrics Aggregation & Forecasting Engine of the
AI-Business-Analytics-Dashboard repository.

The repository ships a React/TypeScript frontend (`frontend/src`) and a Python
backend (`backend/app`, FastAPI + Prophet).  The backend engine itself — KPI
calculator, forecaster, forecast orchestrator, aggregator — is not part of the
frontend sources; where a definition embeds it, the definition is modelled
from the specification (its doc comment says so).  Frontend components
(`ForecastChart.tsx`, `AdditionalCharts.tsx`, `api.ts`) are embedded directly
from their TypeScript source.

Real numbers of the spec (and TypeScript `number`s) are modelled as `ℚ`.
Calendar dates are modelled as day indices (`ℕ`), strictly increasing in a
stored series; day-of-week of a date `d` is `d % 7`.
-/

/-- Sum of a list of rationals (TypeScript `reduce((s, x) => s + x, 0)`,
spec `sum`). -/
def sumQ (l : List ℚ) : ℚ := l.foldr (fun a b => a + b) 0

/-- Arithmetic mean of a list of rationals; `0` for the empty list
(`ℚ` division by zero). -/
def meanQ (l : List ℚ) : ℚ := sumQ l / (l.length : ℚ)

/-- Modelled from the spec: §3 DailyRecord — one row per calendar date, the
ground-truth record type of the Daily Series Store (the backend data layer is
not among the provided sources). -/
structure DailyRecord where
  date : Nat
  revenue : ℚ
  orders : Nat
  units_sold : Nat
  active_customers : Nat
  new_customers : Nat
  churned_customers : Nat
  churn_rate : ℚ
  avg_order_value : ℚ

/-- Modelled from the spec: §7 error kinds of the engine (backend not among
the provided sources).  `degenerateHistory` is the per-metric fitting failure
of the §8 partial-failure scenario (a zero-variance history with sufficient
length). -/
inductive EngineError where
  | insufficientData
  | insufficientHistory
  | unknownMetric
  | degenerateHistory
  deriving DecidableEq

/-- Modelled from the spec: §3 KPI record
`{value, previous_value, change_percent}` (mirrored by the frontend `KPI`
interface in `services/api.ts`). -/
structure KPI where
  value : ℚ
  previous_value : ℚ
  change_percent : ℚ

/-- Modelled from the spec: §3 — `change_percent = (value - previous_value) /
previous_value * 100` when `previous_value ≠ 0`; `0` when both are zero; the
`+100` sentinel when `previous_value = 0 < value`. -/
def changePercent (value previous : ℚ) : ℚ :=
  if previous ≠ 0 then (value - previous) / previous * 100
  else if 0 < value then 100
  else 0

/-- Build a KPI from a current and a previous aggregate. -/
def mkKPI (cur prev : ℚ) : KPI :=
  { value := cur, previous_value := prev, change_percent := changePercent cur prev }

/-- Modelled from the spec: §4.2 — the five tracked indicators of
`compute_kpis` (mirrored by the frontend `KPIResponse` interface). -/
structure KPIReport where
  total_revenue : KPI
  total_orders : KPI
  active_customers : KPI
  avg_order_value : KPI
  churn_rate : KPI

/-- Value of `f` at the last record of a window, `0` on an empty window. -/
def lastVal (l : List DailyRecord) (f : DailyRecord → ℚ) : ℚ :=
  match l.getLast? with
  | some r => f r
  | none => 0

/-- Modelled from the spec: §4.2 KPI Calculator (backend not among the
provided sources).  `current` is the trailing `p` records, `previous` the `p`
records before them; `total_revenue`/`total_orders` are window sums,
`active_customers` the latest value of the window, `avg_order_value` and
`churn_rate` window means; fails with `InsufficientDataError` when fewer than
`2 * p` records exist. -/
def compute_kpis (series : List DailyRecord) (p : Nat) :
    Except EngineError KPIReport :=
  if series.length < 2 * p then .error .insufficientData
  else
    let current := series.drop (series.length - p)
    let previous := (series.drop (series.length - 2 * p)).take p
    .ok
      { total_revenue := mkKPI (sumQ (current.map (·.revenue)))
          (sumQ (previous.map (·.revenue)))
        total_orders := mkKPI (sumQ (current.map (fun r => (r.orders : ℚ))))
          (sumQ (previous.map (fun r => (r.orders : ℚ))))
        active_customers := mkKPI (lastVal current (fun r => (r.active_customers : ℚ)))
          (lastVal previous (fun r => (r.active_customers : ℚ)))
        avg_order_value := mkKPI (meanQ (current.map (·.avg_order_value)))
          (meanQ (previous.map (·.avg_order_value)))
        churn_rate := mkKPI (meanQ (current.map (·.churn_rate)))
          (meanQ (previous.map (·.churn_rate))) }

/-- Modelled from the spec: §3 ForecastSeries (mirrored by the frontend
`ForecastData` interface in `services/api.ts`, lines 51–57). -/
structure ForecastSeries where
  dates : List Nat
  predictions : List ℚ
  lower_bound : List ℚ
  upper_bound : List ℚ
  uncertainty : List ℚ

/-- The four metrics tracked by the orchestrator (§4.4; frontend
`AllForecastsResponse`). -/
inductive MetricName where
  | revenue
  | orders
  | customers
  | churn_rate
  deriving DecidableEq

/-- The historical daily value of a tracked metric. -/
def metricValue : MetricName → DailyRecord → ℚ
  | .revenue, r => r.revenue
  | .orders, r => (r.orders : ℚ)
  | .customers, r => (r.active_customers : ℚ)
  | .churn_rate, r => r.churn_rate

/-- Whether a metric is rate-like (domain `[0, 100]`) rather than
non-negative-only (§4.3). -/
def isRateMetric : MetricName → Bool
  | .churn_rate => true
  | _ => false

/-- Modelled from the spec: §4.3 — clipping a value to a metric's valid
domain: counts and revenue to `≥ 0`, rate metrics to `[0, 100]`. -/
def clipDomain (m : MetricName) (x : ℚ) : ℚ :=
  if isRateMetric m then min (max x 0) 100 else max x 0

/-- Values paired with their `ℚ`-cast position, starting at `i`. -/
def indexedFrom (i : Nat) : List ℚ → List (ℚ × ℚ)
  | [] => []
  | y :: ys => ((i : ℚ), y) :: indexedFrom (i + 1) ys

/-- A fitted linear trend: intercept and slope. -/
structure TrendFit where
  intercept : ℚ
  slope : ℚ

/-- Modelled from the spec: §4.3 — the smooth trend component, fit by
ordinary least squares over the history positions `0, 1, …` (the spec leaves
the concrete trend model to the implementer). -/
def fitTrend (ys : List ℚ) : TrendFit :=
  let pts := indexedFrom 0 ys
  let n : ℚ := (ys.length : ℚ)
  let sx := sumQ (pts.map (·.1))
  let sy := sumQ (pts.map (·.2))
  let sxy := sumQ (pts.map (fun p => p.1 * p.2))
  let sxx := sumQ (pts.map (fun p => p.1 * p.1))
  let denom := n * sxx - sx * sx
  let slope := if denom = 0 then 0 else (n * sxy - sx * sy) / denom
  { intercept := (sy - slope * sx) / n, slope := slope }

/-- Residuals of the trend fit at each history position. -/
def fitResiduals (ys : List ℚ) : List ℚ :=
  let f := fitTrend ys
  (indexedFrom 0 ys).map (fun p => p.2 - (f.intercept + f.slope * p.1))

/-- Mean residual over the history dates falling on day-of-week `d`
(the weekly-seasonality component of §4.3); `0` when no date matches. -/
def dowComponent (dates : List Nat) (res : List ℚ) (d : Nat) : ℚ :=
  meanQ (((dates.zip res).filter (fun p => p.1 % 7 == d)).map (·.2))

/-- Mean residual over the history dates falling on day-of-year `d`
(the yearly-seasonality component of §4.3, used only with ≥ 1 year of
history); `0` when no date matches. -/
def doyComponent (dates : List Nat) (res : List ℚ) (d : Nat) : ℚ :=
  meanQ (((dates.zip res).filter (fun p => p.1 % 365 == d)).map (·.2))

/-- The residual spread of the fit: mean absolute residual (§4.3 derives
uncertainty from the residual distribution of the fit). -/
def sigmaOf (ys : List ℚ) : ℚ := meanQ ((fitResiduals ys).map (fun r => |r|))

/-- The last known date of a series (`0` for an empty series); forecasts are
anchored right after it. -/
def forecastLastDate (series : List DailyRecord) : Nat :=
  (series.map (·.date)).getLastD 0

/-- The seasonal component at date `t`: weekly seasonality, plus yearly
seasonality when at least one year of history exists (§4.3). -/
def seasonalAt (series : List DailyRecord) (m : MetricName) (t : Nat) : ℚ :=
  let ys := series.map (metricValue m)
  let ds := series.map (·.date)
  let res := fitResiduals ys
  dowComponent ds res (t % 7) +
    (if 365 ≤ ys.length then doyComponent ds res (t % 365) else 0)

/-- The point prediction at forecast step `j` (0-based): trend evaluated at
the continued position plus the seasonal components (§4.3). -/
def predAt (series : List DailyRecord) (m : MetricName) (j : Nat) : ℚ :=
  let ys := series.map (metricValue m)
  let f := fitTrend ys
  f.intercept + f.slope * ((ys.length + j : Nat) : ℚ) +
    seasonalAt series m (forecastLastDate series + 1 + j)

/-- The uncertainty at forecast step `j`: the residual spread, widened as the
horizon grows (§4.3: further-out dates carry wider intervals). -/
def uncAt (series : List DailyRecord) (m : MetricName) (j : Nat) : ℚ :=
  sigmaOf (series.map (metricValue m)) * (1 + (j : ℚ) / 7)

/-- Modelled from the spec: §4.3 Forecaster, before domain clipping (backend
`ml_forecasting.py` is not among the provided sources).  Trend plus
seasonality evaluated at each future date; `lower_bound = prediction -
uncertainty` and `upper_bound = prediction + uncertainty`. -/
def rawForecast (series : List DailyRecord) (m : MetricName) (horizon : Nat) :
    ForecastSeries :=
  { dates := (List.range horizon).map (fun j => forecastLastDate series + 1 + j)
    predictions := (List.range horizon).map (predAt series m)
    lower_bound := (List.range horizon).map (fun j => predAt series m j - uncAt series m j)
    upper_bound := (List.range horizon).map (fun j => predAt series m j + uncAt series m j)
    uncertainty := (List.range horizon).map (uncAt series m) }

/-- Clip the prediction and both bounds of a series to the metric's domain
(§4.3); `dates` and `uncertainty` are untouched. -/
def clipSeries (m : MetricName) (fs : ForecastSeries) : ForecastSeries :=
  { fs with
    predictions := fs.predictions.map (clipDomain m)
    lower_bound := fs.lower_bound.map (clipDomain m)
    upper_bound := fs.upper_bound.map (clipDomain m) }

/-- A history has variance when some value differs from the first one. -/
def zeroVariance (l : List ℚ) : Prop := ∀ x ∈ l, x = l.headD 0

instance (l : List ℚ) : Decidable (zeroVariance l) := by
  unfold zeroVariance; infer_instance

/-- Modelled from the spec: §4.3/§6 `GetForecast` — fails with
`InsufficientHistoryError` below 14 days of history, fails on a degenerate
(zero-variance) history (§8 partial-failure scenario), and otherwise returns
the fitted series clipped to the metric's domain. -/
def getForecast (series : List DailyRecord) (m : MetricName) (horizon : Nat) :
    Except EngineError ForecastSeries :=
  if series.length < 14 then .error .insufficientHistory
  else if zeroVariance (series.map (metricValue m)) then .error .degenerateHistory
  else .ok (clipSeries m (rawForecast series m horizon))

/-- Whether a per-metric forecast result succeeded. -/
def isOkB : Except EngineError ForecastSeries → Bool
  | .ok _ => true
  | .error _ => false

/-- Modelled from the spec: §4.4 cross-metric summary, derived from the
per-metric predictions (mirrored by the frontend `AllForecastsResponse`
`summary` field). -/
structure ForecastSummary where
  total_revenue : ℚ
  total_orders : ℚ
  avg_customers : ℚ
  avg_churn_rate : ℚ

/-- Modelled from the spec: §4.4 — the orchestrator's result: one result per
tracked metric (a failed metric keeps its identifying error), an overall
success flag, and the derived summary (present only when every metric
succeeded). -/
structure AllForecastsResult where
  success : Bool
  revenue : Except EngineError ForecastSeries
  orders : Except EngineError ForecastSeries
  customers : Except EngineError ForecastSeries
  churn_rate : Except EngineError ForecastSeries
  summary : Option ForecastSummary

/-- The per-metric field of an orchestrator result. -/
def metricResult (r : AllForecastsResult) : MetricName → Except EngineError ForecastSeries
  | .revenue => r.revenue
  | .orders => r.orders
  | .customers => r.customers
  | .churn_rate => r.churn_rate

/-- Modelled from the spec: §4.4 `forecast_all` / §6 `GetAllForecasts`
(backend not among the provided sources).  Runs the Forecaster once per
tracked metric over the same series and horizon; raises only on total failure
(every metric fails); a partial failure is returned as a result with
`success := false` whose failed entries keep their errors (never substituted
with zeros); when all succeed, the summary is derived from the predictions. -/
def forecast_all (series : List DailyRecord) (horizon : Nat) :
    Except EngineError AllForecastsResult :=
  match getForecast series .revenue horizon, getForecast series .orders horizon,
      getForecast series .customers horizon, getForecast series .churn_rate horizon with
  | .ok r, .ok o, .ok c, .ok ch =>
    .ok { success := true, revenue := .ok r, orders := .ok o, customers := .ok c,
          churn_rate := .ok ch,
          summary := some { total_revenue := sumQ r.predictions,
                            total_orders := sumQ o.predictions,
                            avg_customers := meanQ c.predictions,
                            avg_churn_rate := meanQ ch.predictions } }
  | .error e, .error _, .error _, .error _ => .error e
  | fr, fo, fc, fch =>
    .ok { success := false, revenue := fr, orders := fo, customers := fc,
          churn_rate := fch, summary := none }

/-- One bucket of the weekly roll-up: sums for `revenue`/`orders`/
`units_sold`, means for the rate-like fields (§4.1). -/
structure WeeklyRecord where
  revenue : ℚ
  orders : ℚ
  units_sold : ℚ
  churn_rate : ℚ
  avg_order_value : ℚ

/-- Aggregate one 7-day bucket (§4.1). -/
def bucketOf (days : List DailyRecord) : WeeklyRecord :=
  { revenue := sumQ (days.map (·.revenue))
    orders := sumQ (days.map (fun r => (r.orders : ℚ)))
    units_sold := sumQ (days.map (fun r => (r.units_sold : ℚ)))
    churn_rate := meanQ (days.map (·.churn_rate))
    avg_order_value := meanQ (days.map (·.avg_order_value)) }

/-- Modelled from the spec: §4.1 `weekly_rollup` (backend not among the
provided sources) — groups the trailing `n_weeks * 7` days of a
date-ascending series into non-overlapping 7-day buckets, most recent
complete week last; modelled for series holding at least `n_weeks * 7`
records (the complete-weeks case the claims quantify over). -/
def weekly_rollup (series : List DailyRecord) (n_weeks : Nat) : List WeeklyRecord :=
  let trailing := series.drop (series.length - n_weeks * 7)
  (List.range n_weeks).map (fun k => bucketOf ((trailing.drop (k * 7)).take 7))

/-- The frontend `DailyMetric` interface (`services/api.ts`, lines 33–43);
TypeScript `number` fields are modelled as `ℚ`. -/
structure DailyMetric where
  date : String
  daily_revenue : ℚ
  orders : ℚ
  sales_units : ℚ
  active_customers : ℚ
  new_customers : ℚ
  churned_customers : ℚ
  churn_rate : ℚ
  avg_order_value : ℚ

/-- One bar of `WeeklyComparisonChart`; the TypeScript label is the string
`Week ${week}`. -/
structure WeekPoint where
  week : Nat
  revenue : ℚ
  orders : ℚ

/-- The grouping loop of `WeeklyComparisonChart`
(`AdditionalCharts.tsx`, lines 129–140): for `i = 0, 1, 2, 3` take
`data.slice(i*7, (i+1)*7)`, skip empty slices, and `unshift` a bar labelled
`Week ${4 - i}` holding the slice's revenue and orders sums. -/
def weeklyGroups (data : List DailyMetric) : List WeekPoint :=
  (List.range 4).foldl
    (fun acc i =>
      let weekData := (data.drop (i * 7)).take 7
      if 0 < weekData.length then
        { week := 4 - i
          revenue := sumQ (weekData.map (·.daily_revenue))
          orders := sumQ (weekData.map (·.orders)) } :: acc
      else acc)
    []

/-- The three slice labels of `CustomerDistributionChart`'s pie
(`'Active Customers'`, `'New Customers'`, `'Churned'`). -/
inductive CustomerSlice where
  | activeCustomers
  | newCustomers
  | churned
  deriving DecidableEq

/-- What `CustomerDistributionChart` renders: the `'No data available'`
placeholder, or a pie built from labelled slice values. -/
inductive DistView where
  | noData
  | pie (slices : List (CustomerSlice × ℚ))

/-- The rendering decision of `CustomerDistributionChart`
(`AdditionalCharts.tsx`, lines 38–52): a missing or empty list renders the
placeholder; otherwise the three pie slices are read from
`data[data.length - 1]`. -/
def customerDistribution : Option (List DailyMetric) → DistView
  | none => .noData
  | some data =>
    if h : data.length = 0 then .noData
    else
      let latestData := data.get ⟨data.length - 1, by omega⟩
      .pie [(.activeCustomers, latestData.active_customers),
            (.newCustomers, latestData.new_customers),
            (.churned, latestData.churned_customers)]

/-- One row of `ForecastChart`'s `chartData`; a TypeScript out-of-range index
read is `undefined`, modelled as `none`. -/
structure ChartPoint where
  date : Nat
  prediction : Option ℚ
  lowerBound : Option ℚ
  upperBound : Option ℚ

/-- Index-carrying helper for `chartData`. -/
def chartDataAux (fd : ForecastSeries) : Nat → List Nat → List ChartPoint
  | _, [] => []
  | i, d :: ds =>
    { date := d, prediction := fd.predictions.get? i,
      lowerBound := fd.lower_bound.get? i,
      upperBound := fd.upper_bound.get? i } :: chartDataAux fd (i + 1) ds

/-- The `chartData` mapping of `ForecastChart` (`ForecastChart.tsx`,
lines 53–58): every index of `dates` is mapped to the prediction and the two
bounds at that index. -/
def chartData (fd : ForecastSeries) : List ChartPoint :=
  chartDataAux fd 0 fd.dates

theorem sumQ_cons (a : ℚ) (t : List ℚ) : sumQ (a :: t) = a + sumQ t := rfl

theorem sumQ_nonneg {l : List ℚ} (h : ∀ x ∈ l, 0 ≤ x) : 0 ≤ sumQ l := by
  induction l with
  | nil => simp [sumQ]
  | cons a t ih =>
    rw [sumQ_cons]
    have ha := h a (by simp)
    have ht := ih (fun x hx => h x (List.mem_cons_of_mem a hx))
    linarith

theorem meanQ_nonneg {l : List ℚ} (h : ∀ x ∈ l, 0 ≤ x) : 0 ≤ meanQ l :=
  div_nonneg (sumQ_nonneg h) (by positivity)

theorem sigmaOf_nonneg (ys : List ℚ) : 0 ≤ sigmaOf ys := by
  refine meanQ_nonneg ?_
  intro x hx
  obtain ⟨r, _, rfl⟩ := List.mem_map.mp hx
  exact abs_nonneg r

theorem uncAt_nonneg (s : List DailyRecord) (m : MetricName) (j : Nat) :
    0 ≤ uncAt s m j := by
  refine mul_nonneg (sigmaOf_nonneg _) ?_
  positivity

theorem uncAt_mono (s : List DailyRecord) (m : MetricName) {i j : Nat} (h : i ≤ j) :
    uncAt s m i ≤ uncAt s m j := by
  unfold uncAt
  have hc : ((i : ℚ)) ≤ (j : ℚ) := by exact_mod_cast h
  have : (1 : ℚ) + (i : ℚ) / 7 ≤ 1 + (j : ℚ) / 7 := by linarith
  exact mul_le_mul_of_nonneg_left this (sigmaOf_nonneg _)

theorem clipDomain_mono (m : MetricName) {x y : ℚ} (h : x ≤ y) :
    clipDomain m x ≤ clipDomain m y := by
  unfold clipDomain
  split
  · exact min_le_min (max_le_max h le_rfl) le_rfl
  · exact max_le_max h le_rfl

theorem clipDomain_nonneg (m : MetricName) (x : ℚ) : 0 ≤ clipDomain m x := by
  unfold clipDomain
  split
  · exact le_min (le_max_right x 0) (by norm_num)
  · exact le_max_right x 0

theorem clipDomain_le_100 (x : ℚ) : clipDomain .churn_rate x ≤ 100 := by
  simp [clipDomain, isRateMetric]

theorem getD_rangeMap {α : Type} (f : Nat → α) {n i : Nat} (h : i < n) (d : α) :
    ((List.range n).map f).getD i d = f i := by
  rw [List.getD_eq_getElem?_getD, List.getElem?_map, List.getElem?_range h]
  rfl

theorem getForecast_ok {s : List DailyRecord} {m : MetricName} {n : Nat}
    {fs : ForecastSeries} (h : getForecast s m n = .ok fs) :
    14 ≤ s.length ∧ fs = clipSeries m (rawForecast s m n) := by
  unfold getForecast at h
  split at h
  · cases h
  · split at h
    · cases h
    · refine ⟨by omega, ?_⟩
      cases h
      rfl

/-- Claim C1's invariant on a forecast series: the four value sequences share
length and index alignment with `dates`, and the bounds bracket the
prediction at every index. -/
def SeriesOK (fs : ForecastSeries) : Prop :=
  fs.predictions.length = fs.dates.length ∧
  fs.lower_bound.length = fs.dates.length ∧
  fs.upper_bound.length = fs.dates.length ∧
  fs.uncertainty.length = fs.dates.length ∧
  ∀ i < fs.dates.length,
    fs.lower_bound.getD i 0 ≤ fs.predictions.getD i 0 ∧
    fs.predictions.getD i 0 ≤ fs.upper_bound.getD i 0

/-- `ForecastChart`'s `chartData` mapping is total: every row carries an
actual prediction and both bounds (no `undefined` reads). -/
def ChartTotal (fs : ForecastSeries) : Prop :=
  ∀ cp ∈ chartData fs,
    cp.prediction.isSome = true ∧ cp.lowerBound.isSome = true ∧
    cp.upperBound.isSome = true

theorem chartDataAux_total (fs : ForecastSeries) (ds : List Nat) :
    ∀ (i : Nat), i + ds.length ≤ fs.predictions.length →
      i + ds.length ≤ fs.lower_bound.length →
      i + ds.length ≤ fs.upper_bound.length →
      ∀ cp ∈ chartDataAux fs i ds,
        cp.prediction.isSome = true ∧ cp.lowerBound.isSome = true ∧
        cp.upperBound.isSome = true := by
  induction ds with
  | nil =>
    intro i _ _ _ cp hcp
    simp [chartDataAux] at hcp
  | cons d tl ih =>
    intro i h1 h2 h3 cp hcp
    simp only [chartDataAux, List.mem_cons, List.length_cons] at hcp h1 h2 h3
    rcases hcp with rfl | hcp
    · dsimp only
      refine ⟨?_, ?_, ?_⟩ <;>
      · rw [List.get?_eq_getElem?, List.getElem?_eq_getElem (by omega)]
        rfl
    · exact ih (i + 1) (by omega) (by omega) (by omega) cp hcp

theorem seriesOK_of_clip_raw (s : List DailyRecord) (m : MetricName) (n : Nat) :
    SeriesOK (clipSeries m (rawForecast s m n)) := by
  refine ⟨by simp [clipSeries, rawForecast], by simp [clipSeries, rawForecast],
    by simp [clipSeries, rawForecast], by simp [clipSeries, rawForecast], ?_⟩
  intro i hi
  simp only [clipSeries, rawForecast, List.map_map, List.length_map,
    List.length_range] at hi ⊢
  rw [getD_rangeMap _ hi, getD_rangeMap _ hi, getD_rangeMap _ hi]
  have hu := uncAt_nonneg s m i
  constructor
  · exact clipDomain_mono m (by dsimp only; linarith)
  · exact clipDomain_mono m (by dsimp only; linarith)

theorem chartTotal_of_seriesOK {fs : ForecastSeries} (h : SeriesOK fs) :
    ChartTotal fs := by
  obtain ⟨h1, h2, h3, _, _⟩ := h
  intro cp hcp
  exact chartDataAux_total fs fs.dates 0 (by omega) (by omega) (by omega) cp hcp

/-- Claim C1: every `ForecastSeries` returned by `GetForecast`, and every
per-metric series inside a `GetAllForecasts` result, has its `predictions`,
`lower_bound`, `upper_bound` and `uncertainty` sequences aligned in length
with `dates`, with `lower_bound[i] ≤ predictions[i] ≤ upper_bound[i]` at every
index; consequently the frontend `ForecastChart`'s `chartData` mapping, which
indexes all three value sequences at every index of `dates`, is total. -/
theorem forecast_series_alignment_and_bounds (s : List DailyRecord) (n : Nat) :
    (∀ m fs, getForecast s m n = .ok fs → SeriesOK fs ∧ ChartTotal fs) ∧
    (∀ r, forecast_all s n = .ok r → ∀ m fs, metricResult r m = .ok fs →
      SeriesOK fs ∧ ChartTotal fs) := by
  have base : ∀ m fs, getForecast s m n = .ok fs → SeriesOK fs ∧ ChartTotal fs := by
    intro m fs h
    obtain ⟨-, rfl⟩ := getForecast_ok h
    exact ⟨seriesOK_of_clip_raw s m n, chartTotal_of_seriesOK (seriesOK_of_clip_raw s m n)⟩
  refine ⟨base, ?_⟩
  intro r hr m fs hm
  have hfield : metricResult r m = getForecast s m n := by
    unfold forecast_all at hr
    rcases h1 : getForecast s .revenue n with e1 | r1 <;>
      rcases h2 : getForecast s .orders n with e2 | r2 <;>
        rcases h3 : getForecast s .customers n with e3 | r3 <;>
          rcases h4 : getForecast s .churn_rate n with e4 | r4 <;>
            rw [h1, h2, h3, h4] at hr <;> cases hr <;>
              cases m <;> simp [metricResult, h1, h2, h3, h4]
  exact base m fs (hfield ▸ hm)

/-- Claim C5: for every series the Forecaster returns, the `uncertainty`
sequence is monotonically non-decreasing in the index, and the returned
series is the domain-clipped image of a raw series whose bounds satisfy
`lower_bound[i] = predictions[i] - uncertainty[i]` and
`upper_bound[i] = predictions[i] + uncertainty[i]` at every index. -/
theorem forecast_uncertainty_monotone_and_raw_bounds
    (s : List DailyRecord) (m : MetricName) (n : Nat) (fs : ForecastSeries)
    (h : getForecast s m n = .ok fs) :
    (∀ i, i + 1 < fs.uncertainty.length →
      fs.uncertainty.getD i 0 ≤ fs.uncertainty.getD (i + 1) 0) ∧
    fs = clipSeries m (rawForecast s m n) ∧
    (∀ i < (rawForecast s m n).dates.length,
      (rawForecast s m n).lower_bound.getD i 0 =
        (rawForecast s m n).predictions.getD i 0 -
          (rawForecast s m n).uncertainty.getD i 0 ∧
      (rawForecast s m n).upper_bound.getD i 0 =
        (rawForecast s m n).predictions.getD i 0 +
          (rawForecast s m n).uncertainty.getD i 0) := by
  obtain ⟨-, rfl⟩ := getForecast_ok h
  refine ⟨?_, rfl, ?_⟩
  · intro i hi
    simp only [clipSeries, rawForecast, List.length_map, List.length_range] at hi ⊢
    rw [getD_rangeMap _ (by omega), getD_rangeMap _ (by omega)]
    exact uncAt_mono s m (Nat.le_succ i)
  · intro i hi
    simp only [rawForecast, List.length_map, List.length_range] at hi ⊢
    rw [getD_rangeMap _ hi, getD_rangeMap _ hi, getD_rangeMap _ hi, getD_rangeMap _ hi]
    exact ⟨rfl, rfl⟩

/-- Claim C6: for the non-negative metrics (revenue, orders, customers) the
clipped lower bound is never negative, and for the rate metric (churn_rate)
predictions and both bounds always lie within `[0, 100]`. -/
theorem forecast_domain_bounds
    (s : List DailyRecord) (m : MetricName) (n : Nat) (fs : ForecastSeries)
    (h : getForecast s m n = .ok fs) :
    ((m = .revenue ∨ m = .orders ∨ m = .customers) →
      ∀ i < fs.lower_bound.length, 0 ≤ fs.lower_bound.getD i 0) ∧
    (m = .churn_rate → ∀ i < fs.dates.length,
      (0 ≤ fs.predictions.getD i 0 ∧ fs.predictions.getD i 0 ≤ 100) ∧
      (0 ≤ fs.lower_bound.getD i 0 ∧ fs.lower_bound.getD i 0 ≤ 100) ∧
      (0 ≤ fs.upper_bound.getD i 0 ∧ fs.upper_bound.getD i 0 ≤ 100)) := by
  obtain ⟨-, rfl⟩ := getForecast_ok h
  constructor
  · intro _ i hi
    simp only [clipSeries, rawForecast, List.map_map, List.length_map,
      List.length_range] at hi ⊢
    rw [getD_rangeMap _ hi]
    exact clipDomain_nonneg m _
  · rintro rfl i hi
    simp only [clipSeries, rawForecast, List.map_map, List.length_map,
      List.length_range] at hi ⊢
    rw [getD_rangeMap _ hi, getD_rangeMap _ hi, getD_rangeMap _ hi]
    exact ⟨⟨clipDomain_nonneg _ _, clipDomain_le_100 _⟩,
      ⟨clipDomain_nonneg _ _, clipDomain_le_100 _⟩,
      ⟨clipDomain_nonneg _ _, clipDomain_le_100 _⟩⟩

/-- Claim C9: `GetForecast` is a deterministic function of its inputs — two
invocations on an identical daily series, identical metric and identical
horizon return identical output (the modelled fitting procedure contains no
randomness). -/
theorem getForecast_deterministic
    (s1 s2 : List DailyRecord) (m1 m2 : MetricName) (n1 n2 : Nat)
    (hs : s1 = s2) (hm : m1 = m2) (hn : n1 = n2) :
    getForecast s1 m1 n1 = getForecast s2 m2 n2 := by
  subst hs hm hn
  rfl

/-- Claim C2's contract on one KPI: the standard percent-change formula when
the previous value is non-zero, exactly `0` when both are zero, and exactly
`+100` when growing from a zero baseline. -/
def KPIChangeOK (k : KPI) : Prop :=
  (k.previous_value ≠ 0 →
    k.change_percent = (k.value - k.previous_value) / k.previous_value * 100) ∧
  (k.previous_value = 0 → k.value = 0 → k.change_percent = 0) ∧
  (k.previous_value = 0 → 0 < k.value → k.change_percent = 100)

theorem mkKPI_changeOK (a b : ℚ) : KPIChangeOK (mkKPI a b) := by
  unfold KPIChangeOK mkKPI changePercent
  dsimp only
  refine ⟨?_, ?_, ?_⟩
  · intro h1
    rw [if_pos h1]
  · intro h1 h2
    rw [if_neg (by simp [h1]), if_neg (by simp [h2])]
  · intro h1 h2
    rw [if_neg (by simp [h1]), if_pos h2]

/-- Claim C2: every KPI computed by `compute_kpis` (the engine behind
`GetKPIs`) satisfies the `change_percent` contract: the standard formula when
`previous_value ≠ 0`, exactly `0` when previous and current are both zero,
and exactly `+100` when `previous_value = 0 < value`. -/
theorem compute_kpis_change_percent
    (s : List DailyRecord) (p : Nat) (rep : KPIReport)
    (h : compute_kpis s p = .ok rep) :
    KPIChangeOK rep.total_revenue ∧ KPIChangeOK rep.total_orders ∧
    KPIChangeOK rep.active_customers ∧ KPIChangeOK rep.avg_order_value ∧
    KPIChangeOK rep.churn_rate := by
  unfold compute_kpis at h
  split at h
  · cases h
  · cases h
    exact ⟨mkKPI_changeOK _ _, mkKPI_changeOK _ _, mkKPI_changeOK _ _,
      mkKPI_changeOK _ _, mkKPI_changeOK _ _⟩

/-- Claim C8: for a positive `period_days`, `compute_kpis` fails — and fails
with `InsufficientDataError` — exactly when the series has fewer than
`2 * period_days` records; with at least `2 * period_days` records it
succeeds (no silent degradation to a shorter previous window). -/
theorem compute_kpis_insufficient_data
    (s : List DailyRecord) (p : Nat) (hp : 0 < p) :
    (compute_kpis s p = .error .insufficientData ↔ s.length < 2 * p) ∧
    (2 * p ≤ s.length → ∃ rep, compute_kpis s p = .ok rep) := by
  constructor
  · constructor
    · intro h
      by_contra hlen
      unfold compute_kpis at h
      rw [if_neg hlen] at h
      cases h
    · intro hlen
      unfold compute_kpis
      rw [if_pos hlen]
  · intro hlen
    unfold compute_kpis
    rw [if_neg (by omega)]
    exact ⟨_, rfl⟩

theorem forallMetric (P : MetricName → Prop) :
    (∀ m, P m) ↔ P .revenue ∧ P .orders ∧ P .customers ∧ P .churn_rate :=
  ⟨fun h => ⟨h _, h _, h _, h _⟩, fun ⟨a, b, c, d⟩ m => by cases m <;> assumption⟩

theorem existsMetric (P : MetricName → Prop) :
    (∃ m, P m) ↔ P .revenue ∨ P .orders ∨ P .customers ∨ P .churn_rate := by
  constructor
  · rintro ⟨m, hm⟩
    cases m
    · exact Or.inl hm
    · exact Or.inr (Or.inl hm)
    · exact Or.inr (Or.inr (Or.inl hm))
    · exact Or.inr (Or.inr (Or.inr hm))
  · rintro (h | h | h | h)
    exacts [⟨_, h⟩, ⟨_, h⟩, ⟨_, h⟩, ⟨_, h⟩]

theorem forecast_all_fields {s : List DailyRecord} {n : Nat} {r : AllForecastsResult}
    (h : forecast_all s n = .ok r) :
    ∀ m, metricResult r m = getForecast s m n := by
  intro m
  unfold forecast_all at h
  rcases h1 : getForecast s .revenue n with e1 | r1 <;>
    rcases h2 : getForecast s .orders n with e2 | r2 <;>
      rcases h3 : getForecast s .customers n with e3 | r3 <;>
        rcases h4 : getForecast s .churn_rate n with e4 | r4 <;>
          rw [h1, h2, h3, h4] at h <;> cases h <;>
            cases m <;> simp [metricResult, h1, h2, h3, h4]

theorem forecast_all_success {s : List DailyRecord} {n : Nat} {r : AllForecastsResult}
    (h : forecast_all s n = .ok r) :
    r.success = true ↔ ∀ m, isOkB (getForecast s m n) = true := by
  unfold forecast_all at h
  rcases h1 : getForecast s .revenue n with e1 | r1 <;>
    rcases h2 : getForecast s .orders n with e2 | r2 <;>
      rcases h3 : getForecast s .customers n with e3 | r3 <;>
        rcases h4 : getForecast s .churn_rate n with e4 | r4 <;>
          rw [h1, h2, h3, h4] at h <;> cases h <;>
            simp [forallMetric, isOkB, h1, h2, h3, h4]

theorem forecast_all_error_iff (s : List DailyRecord) (n : Nat) :
    (∃ e, forecast_all s n = .error e) ↔
      ∀ m, isOkB (getForecast s m n) = false := by
  unfold forecast_all
  rcases h1 : getForecast s .revenue n with e1 | r1 <;>
    rcases h2 : getForecast s .orders n with e2 | r2 <;>
      rcases h3 : getForecast s .customers n with e3 | r3 <;>
        rcases h4 : getForecast s .churn_rate n with e4 | r4 <;>
          simp [forallMetric, isOkB, h1, h2, h3, h4]

theorem getForecast_dates {s : List DailyRecord} {m : MetricName} {n : Nat}
    {fs : ForecastSeries} (h : getForecast s m n = .ok fs) :
    fs.dates = (List.range n).map (fun j => forecastLastDate s + 1 + j) := by
  obtain ⟨-, rfl⟩ := getForecast_ok h
  rfl

/-- Claim C3: when at least one tracked metric's forecast succeeds,
`GetAllForecasts` does not raise: it returns a result whose per-metric fields
are exactly the per-metric forecast outcomes (a failed metric keeps its
identifying error — never a zero-filled series) and whose success flag is
`false` precisely when some metric failed; it raises only on total failure
(no metric has usable history).  KPI and aggregation results are separate
pure functions of the series and are unaffected by construction. -/
theorem forecast_all_partial_failure (s : List DailyRecord) (n : Nat) :
    ((∃ m, isOkB (getForecast s m n) = true) →
      ∃ r, forecast_all s n = .ok r ∧
        (∀ m, metricResult r m = getForecast s m n) ∧
        (r.success = false ↔ ∃ m, isOkB (getForecast s m n) = false)) ∧
    (∀ e, forecast_all s n = .error e →
      ∀ m, isOkB (getForecast s m n) = false) := by
  constructor
  · rintro ⟨m0, hm0⟩
    rcases hfa : forecast_all s n with e | r
    · have hall := (forecast_all_error_iff s n).mp ⟨e, hfa⟩
      rw [hall m0] at hm0
      cases hm0
    · refine ⟨r, rfl, forecast_all_fields hfa, ?_⟩
      have hs := forecast_all_success hfa
      constructor
      · intro hfalse
        by_contra hnone
        push_neg at hnone
        have : ∀ m, isOkB (getForecast s m n) = true := by
          intro m
          have := hnone m
          revert this
          cases isOkB (getForecast s m n) <;> simp
        rw [hs.mpr this] at hfalse
        cases hfalse
      · rintro ⟨m1, hm1⟩
        revert hm1
        cases hr : r.success
        · intro _
          rfl
        · intro hm1
          have := hs.mp hr m1
          rw [this] at hm1
          cases hm1
  · intro e he
    exact (forecast_all_error_iff s n).mp ⟨e, he⟩

/-- Claim C4: a successful (all-metrics) `GetAllForecasts` result aligns the
four per-metric series on an identical `dates` axis, and its summary is
derived exactly from the per-metric predictions: `total_revenue` is the sum
of the revenue predictions, `total_orders` the sum of the orders predictions,
`avg_customers` the mean of the customers predictions and `avg_churn_rate`
the mean of the churn-rate predictions. -/
theorem forecast_all_summary_derived (s : List DailyRecord) (n : Nat)
    (r : AllForecastsResult) (h : forecast_all s n = .ok r)
    (hs : r.success = true) :
    ∃ fr fo fc fch, r.revenue = .ok fr ∧ r.orders = .ok fo ∧
      r.customers = .ok fc ∧ r.churn_rate = .ok fch ∧
      fo.dates = fr.dates ∧ fc.dates = fr.dates ∧ fch.dates = fr.dates ∧
      r.summary = some { total_revenue := sumQ fr.predictions
                         total_orders := sumQ fo.predictions
                         avg_customers := meanQ fc.predictions
                         avg_churn_rate := meanQ fch.predictions } := by
  unfold forecast_all at h
  rcases h1 : getForecast s .revenue n with e1 | r1 <;>
    rcases h2 : getForecast s .orders n with e2 | r2 <;>
      rcases h3 : getForecast s .customers n with e3 | r3 <;>
        rcases h4 : getForecast s .churn_rate n with e4 | r4 <;>
          rw [h1, h2, h3, h4] at h <;> cases h <;> try cases hs
  refine ⟨r1, r2, r3, r4, rfl, rfl, rfl, rfl, ?_, ?_, ?_, rfl⟩
  · rw [getForecast_dates h1, getForecast_dates h2]
  · rw [getForecast_dates h1, getForecast_dates h3]
  · rw [getForecast_dates h1, getForecast_dates h4]

/-- Claim C7, backend part: over a date-ascending series with at least
`n_weeks * 7` records, the roll-up has one bucket per week, and bucket `k`
(0-based, most recent complete week last) aggregates exactly the 7
consecutive days starting `n_weeks * 7 - k * 7` days from the end — 
non-overlapping 7-day buckets covering exactly the trailing `n_weeks * 7`
days — with `revenue` and `orders` the sums over those days. -/
def WeeklyRollupOK (series : List DailyRecord) (w : Nat) : Prop :=
  (weekly_rollup series w).length = w ∧
  ∀ k < w,
    (weekly_rollup series w).get? k =
      some (bucketOf ((series.drop (series.length - w * 7 + k * 7)).take 7)) ∧
    (bucketOf ((series.drop (series.length - w * 7 + k * 7)).take 7)).revenue =
      sumQ (((series.drop (series.length - w * 7 + k * 7)).take 7).map (·.revenue)) ∧
    (bucketOf ((series.drop (series.length - w * 7 + k * 7)).take 7)).orders =
      sumQ (((series.drop (series.length - w * 7 + k * 7)).take 7).map
        (fun r => (r.orders : ℚ)))

/-- Claim C7, frontend part: with at least 28 records, the grouping of
`WeeklyComparisonChart` yields exactly four bars; the bar built from
`data[0..7)` is labelled `Week 4` and placed last, preceded by the bars built
from `data[21..28)`, `data[14..21)` and `data[7..14)` in that order, each
holding that slice's revenue and orders sums. -/
def WeeklyGroupsOK (data : List DailyMetric) : Prop :=
  weeklyGroups data =
    [ { week := 1, revenue := sumQ (((data.drop 21).take 7).map (·.daily_revenue))
        orders := sumQ (((data.drop 21).take 7).map (·.orders)) },
      { week := 2, revenue := sumQ (((data.drop 14).take 7).map (·.daily_revenue))
        orders := sumQ (((data.drop 14).take 7).map (·.orders)) },
      { week := 3, revenue := sumQ (((data.drop 7).take 7).map (·.daily_revenue))
        orders := sumQ (((data.drop 7).take 7).map (·.orders)) },
      { week := 4, revenue := sumQ ((data.take 7).map (·.daily_revenue))
        orders := sumQ ((data.take 7).map (·.orders)) } ]

/-- Claim C7: the weekly roll-up groups the trailing `n_weeks * 7` days of a
date-ascending daily series into non-overlapping 7-day buckets, most recent
complete week last, each bucket summing its days' revenue and orders; the
frontend `WeeklyComparisonChart` performs this grouping over the first 28
records of the list it receives, with the bucket built from `data[0..7)`
labelled as the last week. -/
theorem get?_rangeMap {α : Type} (f : Nat → α) {n i : Nat} (h : i < n) :
    ((List.range n).map f).get? i = some (f i) := by
  rw [List.get?_eq_getElem?, List.getElem?_map, List.getElem?_range h]
  rfl

theorem weekly_rollup_grouping (series : List DailyRecord) (w : Nat)
    (hs : w * 7 ≤ series.length) (data : List DailyMetric)
    (hd : 28 ≤ data.length) :
    WeeklyRollupOK series w ∧ WeeklyGroupsOK data := by
  constructor
  · constructor
    · simp [weekly_rollup]
    · intro k hk
      refine ⟨?_, rfl, rfl⟩
      simp only [weekly_rollup]
      rw [get?_rangeMap _ hk]
      rw [List.drop_drop]
  · have h4 : List.range 4 = [0, 1, 2, 3] := by decide
    have c0 : 0 < ((data.drop (0 * 7)).take 7).length := by
      simp [List.length_take, List.length_drop]
      omega
    have c1 : 0 < ((data.drop (1 * 7)).take 7).length := by
      simp [List.length_take, List.length_drop]
      omega
    have c2 : 0 < ((data.drop (2 * 7)).take 7).length := by
      simp [List.length_take, List.length_drop]
      omega
    have c3 : 0 < ((data.drop (3 * 7)).take 7).length := by
      simp [List.length_take, List.length_drop]
      omega
    unfold WeeklyGroupsOK weeklyGroups
    rw [h4]
    simp only [List.foldl_cons, List.foldl_nil]
    rw [if_pos c0, if_pos c1, if_pos c2, if_pos c3]
    norm_num

/-- Claim C10: `CustomerDistributionChart` renders the `No data available`
placeholder for a missing or empty list, and otherwise builds its three pie
slices exclusively from the last element of the list — its
`active_customers`, `new_customers` and `churned_customers` fields, in that
order — so the `data[data.length - 1]` access is never out of bounds. -/
theorem customerDistribution_last_element :
    customerDistribution none = .noData ∧
    customerDistribution (some []) = .noData ∧
    ∀ (l : List DailyMetric) (h : l ≠ []),
      customerDistribution (some l) =
        .pie [(.activeCustomers, (l.getLast h).active_customers),
              (.newCustomers, (l.getLast h).new_customers),
              (.churned, (l.getLast h).churned_customers)] := by
  refine ⟨rfl, rfl, ?_⟩
  intro l h
  have hne : ¬l.length = 0 := by
    intro h0
    exact h (List.length_eq_zero.mp h0)
  show (if h : l.length = 0 then DistView.noData
    else DistView.pie [(.activeCustomers, (l.get ⟨l.length - 1, by omega⟩).active_customers),
      (.newCustomers, (l.get ⟨l.length - 1, by omega⟩).new_customers),
      (.churned, (l.get ⟨l.length - 1, by omega⟩).churned_customers)]) = _
  rw [dif_neg hne]
  have hget : l.get ⟨l.length - 1, by omega⟩ = l.getLast h := by
    rw [List.getLast_eq_getElem]
    rfl
  rw [hget]

/-- A 14-day sample series with linearly growing metrics. -/
def sampleDR (i : Nat) : DailyRecord :=
  { date := i, revenue := (i : ℚ), orders := i, units_sold := 0,
    active_customers := i, new_customers := 0, churned_customers := 0,
    churn_rate := (i : ℚ), avg_order_value := 0 }

/-- 14 days of `sampleDR`. -/
def sample14 : List DailyRecord := (List.range 14).map sampleDR

/-- Like `sampleDR` but with a constant (zero-variance) churn rate. -/
def mixedDR (i : Nat) : DailyRecord :=
  { date := i, revenue := (i : ℚ), orders := i, units_sold := 0,
    active_customers := i, new_customers := 0, churned_customers := 0,
    churn_rate := 5, avg_order_value := 0 }

/-- 14 days of `mixedDR`: every metric varies except `churn_rate`. -/
def sampleMixed : List DailyRecord := (List.range 14).map mixedDR

/-- The forecast the model produces on `sample14` (any metric, horizon 2):
the linear history is fit exactly, so residuals vanish and the bounds
coincide with the predictions. -/
def sampleFs : ForecastSeries :=
  { dates := [14, 15], predictions := [14, 15], lower_bound := [14, 15],
    upper_bound := [14, 15], uncertainty := [0, 0] }

theorem eval_range14 : List.range 14 = [0, 1, 2, 3, 4, 5, 6, 7, 8, 9, 10, 11, 12, 13] := by
  decide

theorem eval_sample14_revenue : getForecast sample14 .revenue 2 = .ok sampleFs := by
  have hr2 : List.range 2 = [0, 1] := by decide
  norm_num [getForecast, sample14, sampleDR, rawForecast, clipSeries, clipDomain,
    zeroVariance, fitTrend, fitResiduals, indexedFrom, sumQ, meanQ, metricValue,
    dowComponent, doyComponent, isRateMetric, eval_range14, hr2, List.getLastD,
    sigmaOf, forecastLastDate, seasonalAt, predAt, uncAt, sampleFs]

theorem eval_sample14_orders : getForecast sample14 .orders 2 = .ok sampleFs := by
  have hr2 : List.range 2 = [0, 1] := by decide
  norm_num [getForecast, sample14, sampleDR, rawForecast, clipSeries, clipDomain,
    zeroVariance, fitTrend, fitResiduals, indexedFrom, sumQ, meanQ, metricValue,
    dowComponent, doyComponent, isRateMetric, eval_range14, hr2, List.getLastD,
    sigmaOf, forecastLastDate, seasonalAt, predAt, uncAt, sampleFs]

theorem eval_sample14_customers : getForecast sample14 .customers 2 = .ok sampleFs := by
  have hr2 : List.range 2 = [0, 1] := by decide
  norm_num [getForecast, sample14, sampleDR, rawForecast, clipSeries, clipDomain,
    zeroVariance, fitTrend, fitResiduals, indexedFrom, sumQ, meanQ, metricValue,
    dowComponent, doyComponent, isRateMetric, eval_range14, hr2, List.getLastD,
    sigmaOf, forecastLastDate, seasonalAt, predAt, uncAt, sampleFs]

theorem eval_sample14_churn : getForecast sample14 .churn_rate 2 = .ok sampleFs := by
  have hr2 : List.range 2 = [0, 1] := by decide
  norm_num [getForecast, sample14, sampleDR, rawForecast, clipSeries, clipDomain,
    zeroVariance, fitTrend, fitResiduals, indexedFrom, sumQ, meanQ, metricValue,
    dowComponent, doyComponent, isRateMetric, eval_range14, hr2, List.getLastD,
    sigmaOf, forecastLastDate, seasonalAt, predAt, uncAt, sampleFs]

theorem eval_sampleMixed_revenue : getForecast sampleMixed .revenue 2 = .ok sampleFs := by
  have hr2 : List.range 2 = [0, 1] := by decide
  norm_num [getForecast, sampleMixed, mixedDR, rawForecast, clipSeries, clipDomain,
    zeroVariance, fitTrend, fitResiduals, indexedFrom, sumQ, meanQ, metricValue,
    dowComponent, doyComponent, isRateMetric, eval_range14, hr2, List.getLastD,
    sigmaOf, forecastLastDate, seasonalAt, predAt, uncAt, sampleFs]

/-- The all-metrics orchestrator result on `sample14`. -/
def sampleAll : AllForecastsResult :=
  { success := true, revenue := .ok sampleFs, orders := .ok sampleFs,
    customers := .ok sampleFs, churn_rate := .ok sampleFs,
    summary := some { total_revenue := 29, total_orders := 29,
                      avg_customers := 29 / 2, avg_churn_rate := 29 / 2 } }

theorem eval_forecast_all_sample14 : forecast_all sample14 2 = .ok sampleAll := by
  unfold forecast_all
  rw [eval_sample14_revenue, eval_sample14_orders, eval_sample14_customers,
    eval_sample14_churn]
  norm_num [sumQ, meanQ, sampleFs, sampleAll]

/-- The KPI report on `sample14` with a 7-day period. -/
def sampleReport : KPIReport :=
  { total_revenue := { value := 70, previous_value := 21, change_percent := 700 / 3 },
    total_orders := { value := 70, previous_value := 21, change_percent := 700 / 3 },
    active_customers := { value := 13, previous_value := 6, change_percent := 350 / 3 },
    avg_order_value := { value := 0, previous_value := 0, change_percent := 0 },
    churn_rate := { value := 10, previous_value := 3, change_percent := 700 / 3 } }

theorem eval_compute_kpis : compute_kpis sample14 7 = .ok sampleReport := by
  norm_num [compute_kpis, sample14, sampleDR, eval_range14, sumQ, meanQ, mkKPI,
    changePercent, lastVal, sampleReport]

/-- A sample frontend daily metric. -/
def dmAt (i : Nat) : DailyMetric :=
  { date := "d", daily_revenue := (i : ℚ), orders := 1, sales_units := 0,
    active_customers := 3, new_customers := 2, churned_customers := 1,
    churn_rate := 0, avg_order_value := 0 }

/-- 28 frontend daily metrics. -/
def data28 : List DailyMetric := (List.range 28).map dmAt

/-- Witness for claim C1 at `sample14`, metric `revenue`, horizon 2. -/
theorem forecast_series_alignment_witness :
    getForecast sample14 .revenue 2 = .ok sampleFs ∧
    SeriesOK sampleFs ∧ ChartTotal sampleFs :=
  ⟨eval_sample14_revenue,
   (forecast_series_alignment_and_bounds sample14 2).1 .revenue sampleFs
     eval_sample14_revenue⟩

/-- Witness for claim C2 at `sample14` with a 7-day period. -/
theorem compute_kpis_change_percent_witness :
    compute_kpis sample14 7 = .ok sampleReport ∧
    (KPIChangeOK sampleReport.total_revenue ∧ KPIChangeOK sampleReport.total_orders ∧
     KPIChangeOK sampleReport.active_customers ∧
     KPIChangeOK sampleReport.avg_order_value ∧ KPIChangeOK sampleReport.churn_rate) :=
  ⟨eval_compute_kpis,
   compute_kpis_change_percent sample14 7 sampleReport eval_compute_kpis⟩

/-- Witness for claim C3 at `sampleMixed` (revenue succeeds, churn_rate is
degenerate), horizon 2. -/
theorem forecast_all_partial_failure_witness :
    ∃ r, forecast_all sampleMixed 2 = .ok r ∧
      (∀ m, metricResult r m = getForecast sampleMixed m 2) ∧
      (r.success = false ↔ ∃ m, isOkB (getForecast sampleMixed m 2) = false) :=
  (forecast_all_partial_failure sampleMixed 2).1
    ⟨.revenue, by rw [eval_sampleMixed_revenue]; rfl⟩

/-- Witness for claim C4 at `sample14`, horizon 2. -/
theorem forecast_all_summary_witness :
    forecast_all sample14 2 = .ok sampleAll ∧ sampleAll.success = true ∧
    (∃ fr fo fc fch, sampleAll.revenue = .ok fr ∧ sampleAll.orders = .ok fo ∧
      sampleAll.customers = .ok fc ∧ sampleAll.churn_rate = .ok fch ∧
      fo.dates = fr.dates ∧ fc.dates = fr.dates ∧ fch.dates = fr.dates ∧
      sampleAll.summary = some { total_revenue := sumQ fr.predictions,
                                 total_orders := sumQ fo.predictions,
                                 avg_customers := meanQ fc.predictions,
                                 avg_churn_rate := meanQ fch.predictions }) :=
  ⟨eval_forecast_all_sample14, rfl,
   forecast_all_summary_derived sample14 2 sampleAll eval_forecast_all_sample14 rfl⟩

/-- Witness for claim C5 at `sample14`, metric `revenue`, horizon 2. -/
theorem forecast_uncertainty_witness :
    getForecast sample14 .revenue 2 = .ok sampleFs ∧
    ((∀ i, i + 1 < sampleFs.uncertainty.length →
        sampleFs.uncertainty.getD i 0 ≤ sampleFs.uncertainty.getD (i + 1) 0) ∧
     sampleFs = clipSeries .revenue (rawForecast sample14 .revenue 2) ∧
     (∀ i < (rawForecast sample14 .revenue 2).dates.length,
        (rawForecast sample14 .revenue 2).lower_bound.getD i 0 =
          (rawForecast sample14 .revenue 2).predictions.getD i 0 -
            (rawForecast sample14 .revenue 2).uncertainty.getD i 0 ∧
        (rawForecast sample14 .revenue 2).upper_bound.getD i 0 =
          (rawForecast sample14 .revenue 2).predictions.getD i 0 +
            (rawForecast sample14 .revenue 2).uncertainty.getD i 0)) :=
  ⟨eval_sample14_revenue,
   forecast_uncertainty_monotone_and_raw_bounds sample14 .revenue 2 sampleFs
     eval_sample14_revenue⟩

/-- Witness for claim C6: the non-negative branch at metric `revenue` and the
rate branch at metric `churn_rate`, both on `sample14`. -/
theorem forecast_domain_bounds_witness :
    (∀ i < sampleFs.lower_bound.length, 0 ≤ sampleFs.lower_bound.getD i 0) ∧
    (∀ i < sampleFs.dates.length,
      (0 ≤ sampleFs.predictions.getD i 0 ∧ sampleFs.predictions.getD i 0 ≤ 100) ∧
      (0 ≤ sampleFs.lower_bound.getD i 0 ∧ sampleFs.lower_bound.getD i 0 ≤ 100) ∧
      (0 ≤ sampleFs.upper_bound.getD i 0 ∧ sampleFs.upper_bound.getD i 0 ≤ 100)) :=
  ⟨(forecast_domain_bounds sample14 .revenue 2 sampleFs eval_sample14_revenue).1
      (Or.inl rfl),
   (forecast_domain_bounds sample14 .churn_rate 2 sampleFs eval_sample14_churn).2 rfl⟩

/-- Witness for claim C7 at `sample14` (2 rollup weeks) and `data28`. -/
theorem weekly_rollup_grouping_witness :
    2 * 7 ≤ sample14.length ∧ 28 ≤ data28.length ∧
    (WeeklyRollupOK sample14 2 ∧ WeeklyGroupsOK data28) :=
  ⟨by norm_num [sample14], by norm_num [data28],
   weekly_rollup_grouping sample14 2 (by norm_num [sample14]) data28
     (by norm_num [data28])⟩

/-- Witness for claim C8 at `sample14` with a positive 7-day period. -/
theorem compute_kpis_insufficient_data_witness :
    0 < 7 ∧
    ((compute_kpis sample14 7 = .error .insufficientData ↔ sample14.length < 2 * 7) ∧
     (2 * 7 ≤ sample14.length → ∃ rep, compute_kpis sample14 7 = .ok rep)) :=
  ⟨by norm_num, compute_kpis_insufficient_data sample14 7 (by norm_num)⟩

/-- Witness for claim C9: two invocations on `sample14` coincide. -/
theorem getForecast_deterministic_witness :
    getForecast sample14 .revenue 2 = getForecast sample14 .revenue 2 :=
  getForecast_deterministic sample14 sample14 .revenue .revenue 2 2 rfl rfl rfl

/-- Witness for claim C10: a one-element list renders a pie from its last
(only) element. -/
theorem customerDistribution_witness :
    customerDistribution (some [dmAt 5]) =
      .pie [(.activeCustomers, ([dmAt 5].getLast (List.cons_ne_nil (dmAt 5) [])).active_customers),
            (.newCustomers, ([dmAt 5].getLast (List.cons_ne_nil (dmAt 5) [])).new_customers),
            (.churned, ([dmAt 5].getLast (List.cons_ne_nil (dmAt 5) [])).churned_customers)] :=
  customerDistribution_last_element.2.2 [dmAt 5] (List.cons_ne_nil (dmAt 5) [])
